import Mathlib

/-!
Shallow embedding of `src/main.c` of https_dns_proxy: a UDP-to-HTTPS DNS
proxy.  C strings are `List Char` (NUL-free, NUL termination implicit),
DNS payloads are `List Nat` (raw bytes), a `struct curl_slist *` is a
`List` whose empty case is the NULL pointer.  Callbacks are embedded as
pure functions returning the list of externally visible actions they
perform (log calls, frees, the HTTPS fetch, the UDP reply), and the
event loop as a step function over a system state.
-/

namespace HttpsDnsProxy

/-- C `isalpha` in the C locale restricted to ASCII: A-Z or a-z, exactly
`Char.isUpper || Char.isLower`. -/
def isalpha (c : Char) : Bool := c.isUpper || c.isLower

/-- The eight characters compared by `strncmp(uri, "https://", 8)` in
`hostname_from_uri` (main.c line 56). -/
def httpsScheme : List Char := "https://".toList

/-- The host component scanned by `hostname_from_uri` (main.c lines 57-59):
everything after the scheme up to the first `/` or the end of the string. -/
def host_part (uri : List Char) : List Char :=
  (uri.drop 8).takeWhile (fun c => c != '/')

/-- Function `hostname_from_uri` of main.c lines 54-68.  Returns
`some host` for the non-zero (success) return, where `host` is the
NUL-terminated string written into the destination buffer, and `none`
for the zero (failure) return.  The checks appear in the source's order:
scheme, buffer-length bound (`end - uri >= hostname_len`), empty host,
final character non-alphabetic. -/
def hostname_from_uri (uri : List Char) (hostname_len : Nat) : Option (List Char) :=
  if uri.take 8 = httpsScheme then
    let host := host_part uri
    if hostname_len ≤ host.length then none
    else if host = [] then none
    else if isalpha (host.getLastD ' ') then some host
    else none
  else none

/-- The four proxy scheme strings of `proxy_supports_name_resolution`
(main.c line 136). -/
def ptypes : List (List Char) :=
  ["http:".toList, "https:".toList, "socks4a:".toList, "socks5h:".toList]

/-- C `strncasecmp(a, b, n) == 0` on NUL-free strings: the first `n`
characters of each side agree after ASCII lower-casing (a string shorter
than `n` stops the comparison at its end, hence the truncated lists must
be equal as lists). -/
def strncasecmp_eq (a b : List Char) (n : Nat) : Bool :=
  (a.take n).map Char.toLower == (b.take n).map Char.toLower

/-- Function `proxy_supports_name_resolution` of main.c lines 133-147:
NULL proxy gives 0, otherwise 1 exactly when the proxy string starts,
case-insensitively, with one of the four `ptypes` prefixes. -/
def proxy_supports_name_resolution (proxy : Option (List Char)) : Bool :=
  match proxy with
  | none => false
  | some p => ptypes.any (fun t => strncasecmp_eq p t t.length)

/-- The poller-activation decision of `main` (main.c lines 208-221):
`app.using_dns_poller` is set to 1 exactly when the configured proxy does
not itself resolve names and `hostname_from_uri(resolver_url, hostname, 254)`
succeeds. -/
def startup_using_dns_poller (curl_proxy : Option (List Char))
    (resolver_url : List Char) : Bool :=
  !proxy_supports_name_resolution curl_proxy
    && (hostname_from_uri resolver_url 254).isSome

/-- A `struct curl_slist *`: `[]` is the NULL pointer; each node carries a
`data` pointer that may itself be NULL. -/
abbrev Slist := List (Option (List Char))

/-- The bootstrap-gate test of main.c line 101:
`app->resolv == NULL || app->resolv->data == NULL`. -/
def resolv_empty : Slist → Bool
  | [] => true
  | d :: _ => d.isNone

/-- The fields of `app_state_t` (main.c lines 36-41) read by the
callbacks; the `https_client` handle carries no observable state here. -/
structure AppState where
  resolv : Slist
  resolver_url : List Char
  using_dns_poller : Bool
deriving DecidableEq

/-- `request_t` (main.c lines 43-48): the per-query Pending Request.
`raddr` is the opaque source address copied from the datagram, `dns_server`
an opaque identifier of the server instance, `dns_req` the owned query
buffer. -/
structure Request where
  tx_id : Nat
  raddr : Nat
  dns_server : Nat
  dns_req : List Nat
deriving DecidableEq

/-- The externally visible actions a callback of main.c performs, in
order: log calls (WLOG warning, FLOG fatal — an emitted `flog` ends the
process), `free` of a query buffer, `free` of a `request_t`, the
`https_client_fetch` call and the `dns_server_respond` call. -/
inductive Action where
  | wlog (msg : String)
  | flog (msg : String)
  | free_dns_req (buf : List Nat)
  | free_req (r : Request)
  | fetch (url : List Char) (body : List Nat) (body_len : Nat)
      (resolv : Slist) (ctx : Request)
  | respond (server : Nat) (raddr : Nat) (buf : List Nat) (buflen : Nat)
deriving DecidableEq

/-- Function `dns_server_cb` of main.c lines 91-117.  `alloc_ok` models
whether the `calloc` of the `request_t` returns memory.  FLOG's
terminate-on-fatal behaviour lives in logging.h; per the spec ("the
process terminates immediately with a logged fatal message") an emitted
`flog` action is terminal: nothing follows it.  The DLOG debug line is
omitted. -/
def dns_server_cb (app : AppState) (dns_server : Nat) (addr : Nat) (tx_id : Nat)
    (dns_req : List Nat) (dns_req_len : Nat) (alloc_ok : Bool) : List Action :=
  if app.using_dns_poller && resolv_empty app.resolv then
    [.wlog "Query received before bootstrapping is completed, discarding.",
     .free_dns_req dns_req]
  else if !alloc_ok then
    [.flog "Out of mem"]
  else
    [.fetch app.resolver_url dns_req dns_req_len app.resolv
       { tx_id := tx_id, raddr := addr, dns_server := dns_server,
         dns_req := dns_req }]

/-- Function `https_resp_cb` of main.c lines 78-89, the fetch-completion
handler: respond (to the address stored in the request) only when `buf`
is non-NULL, then free the owned query buffer and the request itself.
The DLOG debug line is omitted; a NULL context hits the fatal FLOG. -/
def https_resp_cb (req : Option Request) (buf : Option (List Nat))
    (buflen : Nat) : List Action :=
  match req with
  | none => [.flog "data NULL"]
  | some r =>
    (match buf with
     | some b => [Action.respond r.dns_server r.raddr b buflen]
     | none => []) ++ [.free_dns_req r.dns_req, .free_req r]

/-- The outcome of `dns_poll_cb`: whether the fatal branch ran, the list
handed to `curl_slist_free_all`, and the value of `*resolv` afterwards. -/
structure PollEffect where
  fatal : Bool
  freed : Slist
  resolv : Slist
deriving DecidableEq

/-- Function `dns_poll_cb` of main.c lines 119-131.  `addr_text` stands
for the textual address the external `ares_inet_ntop` writes after the
`"%s:443:"` header snprintf put in `buf`.  On the fatal branch
(`strlen(hostname) > 254`) the process dies before touching `*resolv`;
otherwise the whole old list is freed and `*resolv` becomes the one-node
list `curl_slist_append(NULL, buf)`. -/
def dns_poll_cb (hostname : List Char) (resolv : Slist)
    (addr_text : List Char) : PollEffect :=
  if 254 < hostname.length then
    { fatal := true, freed := [], resolv := resolv }
  else
    { fatal := false
      freed := resolv
      resolv := [some (hostname ++ (":443:").toList ++ addr_text)] }

/-- The proxy's whole state as the event loop sees it: the shared
`app_state_t`, the server instance, the hostname `main` handed to the
poller, and the in-flight `request_t` records registered with the HTTPS
client (each `https_client_fetch` call adds one; each completion removes
its own). -/
structure SysState where
  app : AppState
  dns_server : Nat
  hostname : List Char
  inflight : List Request
deriving DecidableEq

/-- The three event sources multiplexed on the reactor: an inbound UDP
query (with its allocation outcome), the completion of the `i`-th
in-flight fetch (with the response body or NULL), and a successful poll
resolution. -/
inductive Event where
  | query (addr tx : Nat) (q : List Nat) (qlen : Nat) (alloc_ok : Bool)
  | complete (i : Nat) (buf : Option (List Nat)) (buflen : Nat)
  | poll (addr_text : List Char)
deriving DecidableEq

/-- The contexts registered by the `https_client_fetch` calls in a list
of actions. -/
def fetched (acts : List Action) : List Request :=
  acts.filterMap (fun a => match a with
    | .fetch _ _ _ _ c => some c
    | _ => none)

/-- One reactor dispatch: the callback main.c registers for the event
runs on the current state; its fetch contexts join the in-flight list, a
completion retires exactly its own record, a successful poll rewrites
`app.resolv` through `dns_poll_cb`. -/
def step (s : SysState) : Event → SysState × List Action
  | .query addr tx q qlen ok =>
    let acts := dns_server_cb s.app s.dns_server addr tx q qlen ok
    ({ s with inflight := s.inflight ++ fetched acts }, acts)
  | .complete i buf buflen =>
    match s.inflight[i]? with
    | none => (s, [])
    | some r =>
      ({ s with inflight := s.inflight.eraseIdx i },
       https_resp_cb (some r) buf buflen)
  | .poll addr_text =>
    let e := dns_poll_cb s.hostname s.app.resolv addr_text
    if e.fatal then (s, [.flog "Hostname too long."])
    else ({ s with app := { s.app with resolv := e.resolv } }, [])

/-- A whole run of the reactor over a list of events, concatenating the
emitted actions. -/
def run (s : SysState) : List Event → SysState × List Action
  | [] => (s, [])
  | e :: tr =>
    let p := step s e
    let q := run p.1 tr
    (q.1, p.2 ++ q.2)

/-- The `request_t` that dns_server_cb's success path fills in (main.c
lines 111-114) from a query's transaction id, source address, server
instance and owned payload. -/
def mk_request (tx addr ds : Nat) (q : List Nat) : Request :=
  { tx_id := tx, raddr := addr, dns_server := ds, dns_req := q }

/-- Whether an action is an `https_client_fetch` call. -/
def isFetch : Action → Bool
  | .fetch _ _ _ _ _ => true
  | _ => false

/-- Whether an action is a `dns_server_respond` call. -/
def isRespond : Action → Bool
  | .respond _ _ _ _ => true
  | _ => false


/-- Helper: a list equals the `n`-truncation of another iff it is a prefix of
it, for `n` the candidate's length. -/
theorem take_eq_iff_exists_append (l t : List Char) :
    l.take t.length = t ↔ ∃ rest, l = t ++ rest := by
  constructor
  · intro h
    exact ⟨l.drop t.length, by
      conv_lhs => rw [← List.take_append_drop t.length l]
      rw [h]⟩
  · rintro ⟨rest, rfl⟩
    exact List.take_left t rest

/-- C1: Fail-closed bootstrap gate.  While `using_dns_poller` is set and the
resolv override is NULL or holds no data, an inbound query is only logged and
its buffer freed: the dispatch issues no HTTPS fetch and no reply, the system
state is unchanged, and every continuation of the run is identical to one in
which the query never arrived — so no reply is ever sent for it. -/
theorem fail_closed_bootstrap_gate (s : SysState) (addr tx : Nat) (q : List Nat)
    (qlen : Nat) (ok : Bool)
    (hpoll : s.app.using_dns_poller = true)
    (hres : resolv_empty s.app.resolv = true) :
    (step s (.query addr tx q qlen ok)).2 =
      [.wlog "Query received before bootstrapping is completed, discarding.",
       .free_dns_req q]
    ∧ (∀ a ∈ (step s (.query addr tx q qlen ok)).2,
        isFetch a = false ∧ isRespond a = false)
    ∧ (step s (.query addr tx q qlen ok)).1 = s
    ∧ ∀ tr, run (step s (.query addr tx q qlen ok)).1 tr = run s tr := by
  have hcb : dns_server_cb s.app s.dns_server addr tx q qlen ok =
      [.wlog "Query received before bootstrapping is completed, discarding.",
       .free_dns_req q] := by
    unfold dns_server_cb
    rw [hpoll, hres]
    rfl
  have hstate : (step s (.query addr tx q qlen ok)).1 = s := by
    simp [step, hcb, fetched]
  refine ⟨by simp [step, hcb], ?_, hstate, fun tr => by rw [hstate]⟩
  simp [step, hcb, isFetch, isRespond]

/-- C1 witness: the gate fires on a concrete bootstrapping state. -/
theorem fail_closed_bootstrap_gate_witness :
    (step ⟨⟨[], "https://dns.google/resolve".toList, true⟩, 5,
        "dns.google".toList, []⟩ (.query 9 4660 [0, 1, 2] 3 true)).1 =
      ⟨⟨[], "https://dns.google/resolve".toList, true⟩, 5,
        "dns.google".toList, []⟩
    ∧ (step ⟨⟨[], "https://dns.google/resolve".toList, true⟩, 5,
        "dns.google".toList, []⟩ (.query 9 4660 [0, 1, 2] 3 true)).2 =
      [.wlog "Query received before bootstrapping is completed, discarding.",
       .free_dns_req [0, 1, 2]] :=
  ⟨(fail_closed_bootstrap_gate ⟨⟨[], "https://dns.google/resolve".toList, true⟩,
      5, "dns.google".toList, []⟩ 9 4660 [0, 1, 2] 3 true rfl rfl).2.2.1,
   (fail_closed_bootstrap_gate ⟨⟨[], "https://dns.google/resolve".toList, true⟩,
      5, "dns.google".toList, []⟩ 9 4660 [0, 1, 2] 3 true rfl rfl).1⟩

/-- C2: Fetch-completion contract.  `https_resp_cb` sends a UDP reply to the
source address recorded in the Pending Request exactly when the response
buffer is non-null, and in every case frees the owned query buffer and the
request record exactly once. -/
theorem https_resp_cb_completion (r : Request) (buf : Option (List Nat))
    (buflen : Nat) :
    (∀ b, buf = some b →
       https_resp_cb (some r) buf buflen =
         [.respond r.dns_server r.raddr b buflen, .free_dns_req r.dns_req,
          .free_req r])
    ∧ (buf = none →
       https_resp_cb (some r) buf buflen = [.free_dns_req r.dns_req, .free_req r])
    ∧ (https_resp_cb (some r) buf buflen).any isRespond = buf.isSome
    ∧ (https_resp_cb (some r) buf buflen).count (.free_dns_req r.dns_req) = 1
    ∧ (https_resp_cb (some r) buf buflen).count (.free_req r) = 1 := by
  cases buf <;> simp [https_resp_cb, isRespond, List.count_cons]

/-- C3: Correlation by record identity.  Two distinct concurrent queries with
the same 16-bit transaction id each get their own `request_t` passed as the
fetch context; completing either fetch (Q2 first included) replies to the
source address stored in that fetch's own record, and the reply target is
independent of the stored transaction id, which is diagnostic only. -/
theorem correlation_by_record (s : SysState)
    (hgate : (s.app.using_dns_poller && resolv_empty s.app.resolv) = false)
    (hin : s.inflight = [])
    (a1 a2 tx : Nat) (q1 q2 : List Nat) (l1 l2 : Nat)
    (hne : a1 ≠ a2 ∨ q1 ≠ q2) :
    mk_request tx a1 s.dns_server q1 ≠ mk_request tx a2 s.dns_server q2
    ∧ (step s (.query a1 tx q1 l1 true)).2 =
        [.fetch s.app.resolver_url q1 l1 s.app.resolv
          (mk_request tx a1 s.dns_server q1)]
    ∧ (step (step s (.query a1 tx q1 l1 true)).1 (.query a2 tx q2 l2 true)).2 =
        [.fetch s.app.resolver_url q2 l2 s.app.resolv
          (mk_request tx a2 s.dns_server q2)]
    ∧ (step (step s (.query a1 tx q1 l1 true)).1
          (.query a2 tx q2 l2 true)).1.inflight =
        [mk_request tx a1 s.dns_server q1, mk_request tx a2 s.dns_server q2]
    ∧ (∀ b n,
        (step (step (step s (.query a1 tx q1 l1 true)).1
            (.query a2 tx q2 l2 true)).1 (.complete 1 (some b) n)).2 =
          [.respond s.dns_server a2 b n, .free_dns_req q2,
           .free_req (mk_request tx a2 s.dns_server q2)])
    ∧ (∀ b2 n2 b1 n1,
        (step (step (step (step s (.query a1 tx q1 l1 true)).1
              (.query a2 tx q2 l2 true)).1 (.complete 1 (some b2) n2)).1
            (.complete 0 (some b1) n1)).2 =
          [.respond s.dns_server a1 b1 n1, .free_dns_req q1,
           .free_req (mk_request tx a1 s.dns_server q1)])
    ∧ (∀ t b n, https_resp_cb (some (mk_request t a1 s.dns_server q1)) (some b) n =
        [.respond s.dns_server a1 b n, .free_dns_req q1,
         .free_req (mk_request t a1 s.dns_server q1)]) := by
  refine ⟨?_, ?_, ?_, ?_, ?_, ?_, ?_⟩
  · rcases hne with h | h <;> simp [mk_request, Request.mk.injEq, h]
  · simp [step, dns_server_cb, hgate, fetched, mk_request]
  · simp [step, dns_server_cb, hgate, fetched, mk_request]
  · simp [step, dns_server_cb, hgate, fetched, hin, mk_request]
  · intro b n
    simp [step, dns_server_cb, hgate, fetched, hin, https_resp_cb, mk_request]
  · intro b2 n2 b1 n1
    simp [step, dns_server_cb, hgate, fetched, hin, https_resp_cb, mk_request]
  · intro t b n
    simp [https_resp_cb, mk_request]

/-- C3 witness: two same-tx-id queries on a concrete bootstrapped state;
completing Q2 then Q1 replies to Q1's own source address with Q1's bytes. -/
theorem correlation_by_record_witness :
    mk_request 7 1 0 [1] ≠ mk_request 7 2 0 [2]
    ∧ (step (step (step (step ⟨⟨[some []], [], false⟩, 0, [], []⟩
            (.query 1 7 [1] 1 true)).1 (.query 2 7 [2] 1 true)).1
          (.complete 1 (some [20]) 1)).1 (.complete 0 (some [10]) 1)).2 =
        [.respond 0 1 [10] 1, .free_dns_req [1], .free_req (mk_request 7 1 0 [1])] :=
  ⟨(correlation_by_record ⟨⟨[some []], [], false⟩, 0, [], []⟩ rfl rfl
      1 2 7 [1] [2] 1 1 (Or.inl (by decide))).1,
   (correlation_by_record ⟨⟨[some []], [], false⟩, 0, [], []⟩ rfl rfl
      1 2 7 [1] [2] 1 1 (Or.inl (by decide))).2.2.2.2.2.1 [20] 1 [10] 1⟩

/-- C4: Transparent passthrough.  A query that passes the bootstrap gate is
handed to `https_client_fetch` with the received payload and length
byte-for-byte unmodified. -/
theorem transparent_passthrough (app : AppState) (ds addr tx : Nat)
    (q : List Nat) (qlen : Nat)
    (hgate : (app.using_dns_poller && resolv_empty app.resolv) = false) :
    dns_server_cb app ds addr tx q qlen true =
      [.fetch app.resolver_url q qlen app.resolv (mk_request tx addr ds q)] := by
  simp [dns_server_cb, hgate, mk_request]

/-- C4 witness: a concrete query is fetched byte-identical. -/
theorem transparent_passthrough_witness :
    dns_server_cb ⟨[some []], [], false⟩ 0 3 18 [0, 1, 2, 3] 4 true =
      [.fetch [] [0, 1, 2, 3] 4 [some []] (mk_request 18 3 0 [0, 1, 2, 3])] :=
  transparent_passthrough ⟨[some []], [], false⟩ 0 3 18 [0, 1, 2, 3] 4 rfl

/-- C5: Hostname parsing scenario.  `https://dns.google/resolve` parses to
hostname `dns.google` and enables bootstrap polling; `https://8.8.8.8/resolve`
fails the parse and polling stays disabled. -/
theorem hostname_parsing_scenario :
    hostname_from_uri ("https://dns.google/resolve".toList) 254 =
      some ("dns.google".toList)
    ∧ startup_using_dns_poller none ("https://dns.google/resolve".toList) = true
    ∧ hostname_from_uri ("https://8.8.8.8/resolve".toList) 254 = none
    ∧ startup_using_dns_poller none ("https://8.8.8.8/resolve".toList) = false := by
  decide

/-- C6 counterexample: `host1.example` does NOT end in a non-alphabetic
character — its host ends in the letter `e` — so `hostname_from_uri` accepts
it and bootstrap polling is enabled, refuting the claim's parenthetical that
such hostnames are rejected. -/
theorem hostname_heuristic_counterexample :
    hostname_from_uri ("https://host1.example/x".toList) 254 =
      some ("host1.example".toList)
    ∧ startup_using_dns_poller none ("https://host1.example/x".toList) = true := by
  decide

/-- C6 (amended): Hostname-vs-IP heuristic.  For every HTTPS URL whose
non-empty host component ends in a non-alphabetic character,
`hostname_from_uri` fails and bootstrap polling is disabled for any proxy;
and it succeeds only when the character immediately before the path separator
(or end of string) is alphabetic.  (A hostname such as `host1.example` ends in
an alphabetic character and is accepted; only hosts whose final character is
non-alphabetic, e.g. `example.host1`, are treated as literal addresses.) -/
theorem hostname_heuristic (uri : List Char) (n : Nat) :
    (∀ c, uri.take 8 = httpsScheme → (host_part uri).getLast? = some c →
        isalpha c = false →
        hostname_from_uri uri n = none
        ∧ ∀ p, startup_using_dns_poller p uri = false)
    ∧ (∀ h, hostname_from_uri uri n = some h →
        ∃ d, h.getLast? = some d ∧ isalpha d = true) := by
  constructor
  · intro c hscheme hlast halpha
    have hne : host_part uri ≠ [] := by
      intro h0
      rw [h0] at hlast
      simp at hlast
    have hd : (host_part uri).getLastD ' ' = c := by
      simp [List.getLastD_eq_getLast?, hlast]
    have hnone : ∀ m, hostname_from_uri uri m = none := by
      intro m
      simp [hostname_from_uri, hscheme, hne, List.getLastD_eq_getLast?, hlast,
        halpha]
    exact ⟨hnone n, fun p => by
      simp [startup_using_dns_poller, hnone 254]⟩
  · intro h hh
    simp only [hostname_from_uri] at hh
    split at hh
    · split at hh
      · exact absurd hh (by simp)
      · split at hh
        · exact absurd hh (by simp)
        · split at hh
          · rename_i hne0 halp
            obtain ⟨d, hd⟩ :=
              Option.isSome_iff_exists.mp (List.getLast?_isSome.mpr hne0)
            have hgd : (host_part uri).getLastD ' ' = d := by
              simp [List.getLastD_eq_getLast?, hd]
            injection hh with hh
            subst hh
            exact ⟨d, hd, by rw [← hgd]; exact halp⟩
          · exact absurd hh (by simp)
    · exact absurd hh (by simp)

/-- C7: Activation policy.  `using_dns_poller` is set iff the configured
proxy does not itself resolve names and the resolver URL parses to a
hostname; `proxy_supports_name_resolution` is 1 exactly when the proxy string
is non-null and starts, case-insensitively, with one of `http:`, `https:`,
`socks4a:`, `socks5h:`. -/
theorem activation_policy (curl_proxy : Option (List Char))
    (resolver_url : List Char) :
    (startup_using_dns_poller curl_proxy resolver_url = true ↔
       (proxy_supports_name_resolution curl_proxy = false ∧
        (hostname_from_uri resolver_url 254).isSome = true))
    ∧ proxy_supports_name_resolution none = false
    ∧ (∀ p, proxy_supports_name_resolution (some p) = true ↔
        ∃ t, t ∈ ptypes ∧ ∃ rest, p.map Char.toLower = t ++ rest) := by
  refine ⟨?_, rfl, ?_⟩
  · simp [startup_using_dns_poller, Bool.and_eq_true, Bool.not_eq_true']
  · intro p
    simp only [proxy_supports_name_resolution, List.any_eq_true]
    constructor
    · rintro ⟨t, ht, hc⟩
      have hlow : t.map Char.toLower = t := by
        simp only [ptypes, List.mem_cons, List.not_mem_nil, or_false] at ht
        rcases ht with rfl | rfl | rfl | rfl <;> decide
      refine ⟨t, ht, ?_⟩
      have h1 : (p.take t.length).map Char.toLower =
          (t.take t.length).map Char.toLower := by
        simpa [strncasecmp_eq] using hc
      rw [List.take_length, hlow, List.map_take] at h1
      exact (take_eq_iff_exists_append (p.map Char.toLower) t).mp h1
    · rintro ⟨t, ht, rest, hp⟩
      have hlow : t.map Char.toLower = t := by
        simp only [ptypes, List.mem_cons, List.not_mem_nil, or_false] at ht
        rcases ht with rfl | rfl | rfl | rfl <;> decide
      have h1 : (p.map Char.toLower).take t.length = t := by
        rw [hp]
        exact List.take_left t rest
      exact ⟨t, ht, by
        simp [strncasecmp_eq, List.map_take, List.take_length, hlow, h1]⟩

/-- C8: Wholesale override replacement.  A successful poll resolution frees
the entire previous override list and installs a freshly built list holding
exactly one entry `hostname:443:resolved-address`; the new value does not
depend on the old list, so old addresses are never merged in. -/
theorem poll_wholesale_replacement (hostname addr_text : List Char)
    (resolv : Slist) (hlen : hostname.length ≤ 254) :
    (dns_poll_cb hostname resolv addr_text).fatal = false
    ∧ (dns_poll_cb hostname resolv addr_text).freed = resolv
    ∧ (dns_poll_cb hostname resolv addr_text).resolv =
        [some (hostname ++ (":443:").toList ++ addr_text)]
    ∧ (dns_poll_cb hostname resolv addr_text).resolv.length = 1
    ∧ ∀ old : Slist, (dns_poll_cb hostname old addr_text).resolv =
        (dns_poll_cb hostname resolv addr_text).resolv := by
  have h : ¬ 254 < hostname.length := not_lt.mpr hlen
  simp [dns_poll_cb, h]

/-- C8 witness: a concrete two-node override list is freed whole and replaced
by the single entry `dns.google:443:8.8.4.4`. -/
theorem poll_wholesale_replacement_witness :
    (dns_poll_cb ("dns.google".toList) [some [], some []] ("8.8.4.4".toList)).resolv =
      [some ("dns.google".toList ++ (":443:").toList ++ "8.8.4.4".toList)]
    ∧ (dns_poll_cb ("dns.google".toList) [some [], some []]
        ("8.8.4.4".toList)).freed = [some [], some []] :=
  ⟨(poll_wholesale_replacement _ _ [some [], some []] (by decide)).2.2.1,
   (poll_wholesale_replacement _ _ [some [], some []] (by decide)).2.1⟩

/-- C9: Out-of-memory on the request allocation is fatal.  When `calloc`
fails for a query that passed the gate, the callback emits only the fatal
`Out of mem` log — terminating the process — with no fetch, no reply and no
degraded continue. -/
theorem oom_alloc_fatal (app : AppState) (ds addr tx : Nat) (q : List Nat)
    (qlen : Nat)
    (hgate : (app.using_dns_poller && resolv_empty app.resolv) = false) :
    dns_server_cb app ds addr tx q qlen false = [.flog "Out of mem"]
    ∧ ∀ a ∈ dns_server_cb app ds addr tx q qlen false,
        isFetch a = false ∧ isRespond a = false := by
  have h : dns_server_cb app ds addr tx q qlen false = [.flog "Out of mem"] := by
    simp [dns_server_cb, hgate]
  exact ⟨h, by rw [h]; simp [isFetch, isRespond]⟩

/-- C9 witness: allocation failure on a concrete state is the single fatal
action. -/
theorem oom_alloc_fatal_witness :
    dns_server_cb ⟨[some []], [], false⟩ 0 3 18 [0, 1] 2 false =
      [.flog "Out of mem"] :=
  (oom_alloc_fatal ⟨[some []], [], false⟩ 0 3 18 [0, 1] 2 rfl).1

/-- C10: Parsed hostnames fit the buffer.  Every hostname accepted by
`hostname_from_uri` with `hostname_len = 254` has at most 253 characters, so
its NUL terminator lands inside the 255-byte buffer, and `dns_poll_cb`'s
fatal `Hostname too long.` branch (strlen > 254) can never fire on it. -/
theorem parsed_hostname_fits (uri : List Char) (h : List Char)
    (hres : hostname_from_uri uri 254 = some h) :
    h.length ≤ 253
    ∧ h.length + 1 ≤ 255
    ∧ ¬ 254 < h.length
    ∧ ∀ (resolv : Slist) (addr_text : List Char),
        (dns_poll_cb h resolv addr_text).fatal = false := by
  have hlen : h.length ≤ 253 := by
    simp only [hostname_from_uri] at hres
    split at hres
    · split at hres
      · exact absurd hres (by simp)
      · split at hres
        · exact absurd hres (by simp)
        · split at hres
          · rename_i hbound hne0 halp
            injection hres with hh
            subst hh
            omega
          · exact absurd hres (by simp)
    · exact absurd hres (by simp)
  refine ⟨hlen, by omega, by omega, ?_⟩
  intro resolv addr_text
  simp [dns_poll_cb, show ¬ 254 < h.length by omega]

/-- C10 witness: the parsed `dns.google` is short and safe for the poller
callback. -/
theorem parsed_hostname_fits_witness :
    ("dns.google".toList).length ≤ 253
    ∧ (dns_poll_cb ("dns.google".toList) [] []).fatal = false :=
  ⟨(parsed_hostname_fits ("https://dns.google/resolve".toList) _ (by decide)).1,
   (parsed_hostname_fits ("https://dns.google/resolve".toList) _ (by decide)).2.2.2
     [] []⟩

end HttpsDnsProxy
